import Mathlib

/-!
Verification of the pimpmyplus disk-image builder and volume packer.

This file gives a shallow embedding of the repository's Python sources
(`disk.py`, `diskcopyimage.py`, `applicationutil.py`, `preparevolume.py`)
and proves or refutes the frozen specification claims about them.

Modelling conventions:
* Python `bytes` values are `List Nat` (each element a byte value).
* ctypes `BigEndianStructure` records become Lean structures whose numeric
  fields are `Nat`; serialization writes each field big-endian, reducing the
  value modulo the field width exactly as the machine representation does.
* ctypes `c_char * n` array fields serialize as the raw bytes padded with
  zero bytes to `n`, and read back (as ctypes attribute access does) as the
  bytes up to the first zero byte.
* Fallible Python code (raised exceptions) is modelled with `Except String`,
  carrying the exact message of the raised exception.
* External collaborators excluded by the spec (the machfs encoder/decoder,
  rsrcfork, appledouble, os/filesystem, subprocess) are abstracted as
  explicit inputs or oracle functions; the code of this repository is
  translated directly.
-/

/-- ASCII bytes of a string literal (used for the Python byte-string
literals appearing in the sources, which are all ASCII). -/
def bstr (s : String) : List Nat := s.toList.map Char.toNat

/-- Big-endian serialization of a 16-bit field (value taken mod 2^16,
as the two stored bytes of a ctypes `c_uint16`). -/
def be16 (n : Nat) : List Nat := [n / 256 % 256, n % 256]

/-- Big-endian serialization of a 32-bit field. -/
def be32 (n : Nat) : List Nat :=
  [n / 16777216 % 256, n / 65536 % 256, n / 256 % 256, n % 256]

/-- Value of a big-endian byte sequence. -/
def beVal (l : List Nat) : Nat := l.foldl (fun a b => 256 * a + b) 0

/-- A ctypes `c_char * len` array field holding the bytes `s`:
raw bytes padded with zero bytes up to `len` (over-long input is
truncated; ctypes would raise at assignment time, which no code path
of the repository does for well-formed configuration). -/
def charField (s : List Nat) (len : Nat) : List Nat :=
  s.take len ++ List.replicate (len - s.length) 0

/-- Reading a ctypes `c_char * n` array attribute yields the bytes up to
the first zero byte. -/
def charVal (l : List Nat) : List Nat := l.takeWhile (fun c => c ≠ 0)

/-- A ctypes `c_uint32 * count` array field holding the values `xs`
(zero-filled slots beyond `xs.length`). -/
def serU32s (count : Nat) (xs : List Nat) : List Nat :=
  ((xs.take count).map be32).flatten ++ List.replicate (4 * (count - xs.length)) 0

/-- Reading a `c_uint32 * count` array back from bytes. -/
def parseU32s : Nat → List Nat → List Nat
  | 0, _ => []
  | n + 1, l => beVal (l.take 4) :: parseU32s n (l.drop 4)

namespace disk

/-- Driver configuration record, as read from `driver.ini`
(`disk.DriverIni.__init__` gives the defaults; `driver_from_ini` fills the
fields from the parsed ini section, which is external input and therefore a
parameter here). -/
structure DriverIni where
  partition_type : List Nat := bstr "Apple_Driver43"
  partition_flags : Nat := 0
  booter : Nat := 0
  bytes : Nat := 0
  load_address_0 : Nat := 0
  load_address_1 : Nat := 0
  goto_address_0 : Nat := 0
  goto_address_1 : Nat := 0
  checksum : Nat := 0
  processor : List Nat := bstr "68000"
  boot_args : List Nat := []
  deriving DecidableEq

instance : Inhabited DriverIni := ⟨{}⟩

/-- A valid driver configuration: its byte-string and list fields fit the
fixed-size ctypes record fields they are copied into. -/
def DriverIni.WF (i : DriverIni) : Prop :=
  i.partition_type.length ≤ 32 ∧ i.processor.length ≤ 16 ∧
  i.boot_args.length ≤ 32

instance (i : DriverIni) : Decidable i.WF := by
  unfold DriverIni.WF; infer_instance

/-- `disk.DriverDescriptor`: one slot of Block0's driver descriptor table. -/
@[ext] structure DriverDescriptor where
  ddBlock : Nat := 0
  ddSize : Nat := 0
  ddType : Nat := 0
  deriving DecidableEq

instance : Inhabited DriverDescriptor := ⟨{}⟩

/-- Serialization of a `DriverDescriptor` (8 bytes, big-endian). -/
def serDriverDescriptor (d : DriverDescriptor) : List Nat :=
  be32 d.ddBlock ++ be16 d.ddSize ++ be16 d.ddType

/-- The fixed-size `DriverDescriptor * 61` array field of Block0. -/
def serDriverDescriptors (count : Nat) (ds : List DriverDescriptor) : List Nat :=
  ((ds.take count).map serDriverDescriptor).flatten ++
    List.replicate (8 * (count - ds.length)) 0

/-- Parsing one `DriverDescriptor` from 8 bytes. -/
def parseDriverDescriptor (l : List Nat) : DriverDescriptor :=
  { ddBlock := beVal (l.take 4)
    ddSize := beVal ((l.drop 4).take 2)
    ddType := beVal ((l.drop 6).take 2) }

/-- Parsing a `DriverDescriptor * count` array. -/
def parseDriverDescriptors : Nat → List Nat → List DriverDescriptor
  | 0, _ => []
  | n + 1, l => parseDriverDescriptor (l.take 8) :: parseDriverDescriptors n (l.drop 8)

/-- Field-width well-formedness of a driver descriptor (what the ctypes
field types enforce by construction). -/
def DriverDescriptor.WF (d : DriverDescriptor) : Prop :=
  d.ddBlock < 4294967296 ∧ d.ddSize < 65536 ∧ d.ddType < 65536

instance (d : DriverDescriptor) : Decidable d.WF := by
  unfold DriverDescriptor.WF; infer_instance

/-- `disk.Block0`: the boot block record. `__init__` sets the signature
magic number; ctypes zero-initializes everything else. The `_pad1`/`_pad2`
source fields are named `pad1`/`pad2` here. -/
@[ext] structure Block0 where
  sbSig : Nat := 0x4552
  sbBlkSize : Nat := 0
  sbBlkCount : Nat := 0
  sbDevType : Nat := 0
  sbDevId : Nat := 0
  sbData : Nat := 0
  sbDrvrCount : Nat := 0
  ddDrivers : List DriverDescriptor := List.replicate 61 {}
  pad1 : Nat := 0
  pad2 : Nat := 0
  deriving DecidableEq

instance : Inhabited Block0 := ⟨{}⟩

/-- Serialization of `Block0` (`bytes(block0)` in the source). -/
def serBlock0 (b : Block0) : List Nat :=
  be16 b.sbSig ++ (be16 b.sbBlkSize ++ (be32 b.sbBlkCount ++ (be16 b.sbDevType ++
    (be16 b.sbDevId ++ (be32 b.sbData ++ (be16 b.sbDrvrCount ++
      (serDriverDescriptors 61 b.ddDrivers ++ (be32 b.pad1 ++ be16 b.pad2))))))))

/-- Parsing a serialized `Block0` back (ctypes attribute reads). -/
def parseBlock0 (l : List Nat) : Block0 :=
  let sbSig := beVal (l.take 2)
  let l := l.drop 2
  let sbBlkSize := beVal (l.take 2)
  let l := l.drop 2
  let sbBlkCount := beVal (l.take 4)
  let l := l.drop 4
  let sbDevType := beVal (l.take 2)
  let l := l.drop 2
  let sbDevId := beVal (l.take 2)
  let l := l.drop 2
  let sbData := beVal (l.take 4)
  let l := l.drop 4
  let sbDrvrCount := beVal (l.take 2)
  let l := l.drop 2
  let ddDrivers := parseDriverDescriptors 61 l
  let l := l.drop 488
  let pad1 := beVal (l.take 4)
  let l := l.drop 4
  let pad2 := beVal (l.take 2)
  { sbSig := sbSig, sbBlkSize := sbBlkSize, sbBlkCount := sbBlkCount,
    sbDevType := sbDevType, sbDevId := sbDevId, sbData := sbData,
    sbDrvrCount := sbDrvrCount, ddDrivers := ddDrivers,
    pad1 := pad1, pad2 := pad2 }

/-- Field-width well-formedness of `Block0` (enforced by the ctypes types). -/
def Block0.WF (b : Block0) : Prop :=
  b.sbSig < 65536 ∧ b.sbBlkSize < 65536 ∧ b.sbBlkCount < 4294967296 ∧
  b.sbDevType < 65536 ∧ b.sbDevId < 65536 ∧ b.sbData < 4294967296 ∧
  b.sbDrvrCount < 65536 ∧ b.ddDrivers.length = 61 ∧
  (∀ d ∈ b.ddDrivers, d.WF) ∧ b.pad1 < 4294967296 ∧ b.pad2 < 65536

instance (b : Block0) : Decidable b.WF := by
  unfold Block0.WF; infer_instance

/-- `disk.PartitionMapBlock`: one partition-map entry record. `__init__`
sets the signature magic number; ctypes zero-initializes everything else. -/
@[ext] structure PartitionMapBlock where
  dpme_signature : Nat := 0x504d
  dpme_sigPad : Nat := 0
  dpme_map_entries : Nat := 0
  dpme_pblock_start : Nat := 0
  dpme_pblocks : Nat := 0
  dpme_name : List Nat := []
  dpme_type : List Nat := []
  dpme_lblock_start : Nat := 0
  dpme_lblocks : Nat := 0
  dpme_flags : Nat := 0
  dpme_boot_block : Nat := 0
  dpme_boot_bytes : Nat := 0
  dpme_load_addr : Nat := 0
  dpme_load_addr_2 : Nat := 0
  dpme_goto_addr : Nat := 0
  dpme_goto_addr_2 : Nat := 0
  dpme_checksum : Nat := 0
  dpme_process_id : List Nat := []
  dpme_boot_args : List Nat := List.replicate 32 0
  dpme_reserved_3 : List Nat := List.replicate 62 0
  deriving DecidableEq

instance : Inhabited PartitionMapBlock := ⟨{}⟩

/-- Serialization of a `PartitionMapBlock` (`bytes(block)` in the source). -/
def serPartitionMapBlock (p : PartitionMapBlock) : List Nat :=
  be16 p.dpme_signature ++ (be16 p.dpme_sigPad ++ (be32 p.dpme_map_entries ++
    (be32 p.dpme_pblock_start ++ (be32 p.dpme_pblocks ++
      (charField p.dpme_name 32 ++ (charField p.dpme_type 32 ++
        (be32 p.dpme_lblock_start ++ (be32 p.dpme_lblocks ++ (be32 p.dpme_flags ++
          (be32 p.dpme_boot_block ++ (be32 p.dpme_boot_bytes ++
            (be32 p.dpme_load_addr ++ (be32 p.dpme_load_addr_2 ++
              (be32 p.dpme_goto_addr ++ (be32 p.dpme_goto_addr_2 ++
                (be32 p.dpme_checksum ++ (charField p.dpme_process_id 16 ++
                  (serU32s 32 p.dpme_boot_args ++
                    serU32s 62 p.dpme_reserved_3))))))))))))))))))

/-- Parsing a serialized `PartitionMapBlock` back (ctypes attribute reads). -/
def parsePartitionMapBlock (l : List Nat) : PartitionMapBlock :=
  let dpme_signature := beVal (l.take 2)
  let l := l.drop 2
  let dpme_sigPad := beVal (l.take 2)
  let l := l.drop 2
  let dpme_map_entries := beVal (l.take 4)
  let l := l.drop 4
  let dpme_pblock_start := beVal (l.take 4)
  let l := l.drop 4
  let dpme_pblocks := beVal (l.take 4)
  let l := l.drop 4
  let dpme_name := charVal (l.take 32)
  let l := l.drop 32
  let dpme_type := charVal (l.take 32)
  let l := l.drop 32
  let dpme_lblock_start := beVal (l.take 4)
  let l := l.drop 4
  let dpme_lblocks := beVal (l.take 4)
  let l := l.drop 4
  let dpme_flags := beVal (l.take 4)
  let l := l.drop 4
  let dpme_boot_block := beVal (l.take 4)
  let l := l.drop 4
  let dpme_boot_bytes := beVal (l.take 4)
  let l := l.drop 4
  let dpme_load_addr := beVal (l.take 4)
  let l := l.drop 4
  let dpme_load_addr_2 := beVal (l.take 4)
  let l := l.drop 4
  let dpme_goto_addr := beVal (l.take 4)
  let l := l.drop 4
  let dpme_goto_addr_2 := beVal (l.take 4)
  let l := l.drop 4
  let dpme_checksum := beVal (l.take 4)
  let l := l.drop 4
  let dpme_process_id := charVal (l.take 16)
  let l := l.drop 16
  let dpme_boot_args := parseU32s 32 l
  let l := l.drop 128
  let dpme_reserved_3 := parseU32s 62 l
  { dpme_signature := dpme_signature, dpme_sigPad := dpme_sigPad,
    dpme_map_entries := dpme_map_entries, dpme_pblock_start := dpme_pblock_start,
    dpme_pblocks := dpme_pblocks, dpme_name := dpme_name, dpme_type := dpme_type,
    dpme_lblock_start := dpme_lblock_start, dpme_lblocks := dpme_lblocks,
    dpme_flags := dpme_flags, dpme_boot_block := dpme_boot_block,
    dpme_boot_bytes := dpme_boot_bytes, dpme_load_addr := dpme_load_addr,
    dpme_load_addr_2 := dpme_load_addr_2, dpme_goto_addr := dpme_goto_addr,
    dpme_goto_addr_2 := dpme_goto_addr_2, dpme_checksum := dpme_checksum,
    dpme_process_id := dpme_process_id, dpme_boot_args := dpme_boot_args,
    dpme_reserved_3 := dpme_reserved_3 }

/-- Byteness of a stored `c_char` array value: nonzero bytes (a zero byte
would terminate the ctypes read early) that fit in the array. -/
def GoodChars (s : List Nat) (len : Nat) : Prop :=
  s.length ≤ len ∧ ∀ c ∈ s, c ≠ 0 ∧ c < 256

instance (s : List Nat) (len : Nat) : Decidable (GoodChars s len) := by
  unfold GoodChars; infer_instance

/-- Field-width well-formedness of a `PartitionMapBlock` (what the ctypes
field types enforce by construction). -/
def PartitionMapBlock.WF (p : PartitionMapBlock) : Prop :=
  p.dpme_signature < 65536 ∧ p.dpme_sigPad < 65536 ∧
  p.dpme_map_entries < 4294967296 ∧ p.dpme_pblock_start < 4294967296 ∧
  p.dpme_pblocks < 4294967296 ∧ GoodChars p.dpme_name 32 ∧
  GoodChars p.dpme_type 32 ∧ p.dpme_lblock_start < 4294967296 ∧
  p.dpme_lblocks < 4294967296 ∧ p.dpme_flags < 4294967296 ∧
  p.dpme_boot_block < 4294967296 ∧ p.dpme_boot_bytes < 4294967296 ∧
  p.dpme_load_addr < 4294967296 ∧ p.dpme_load_addr_2 < 4294967296 ∧
  p.dpme_goto_addr < 4294967296 ∧ p.dpme_goto_addr_2 < 4294967296 ∧
  p.dpme_checksum < 4294967296 ∧ GoodChars p.dpme_process_id 16 ∧
  (p.dpme_boot_args.length = 32 ∧ ∀ x ∈ p.dpme_boot_args, x < 4294967296) ∧
  (p.dpme_reserved_3.length = 62 ∧ ∀ x ∈ p.dpme_reserved_3, x < 4294967296)

instance (p : PartitionMapBlock) : Decidable p.WF := by
  unfold PartitionMapBlock.WF; infer_instance

/-- `disk.create_basic_partition`. -/
def create_basic_partition (name type_ : List Nat)
    (start_block block_count flags : Nat) : PartitionMapBlock :=
  { dpme_pblock_start := start_block
    dpme_pblocks := block_count
    dpme_name := name
    dpme_type := type_
    dpme_lblocks := block_count
    dpme_flags := flags }

/-- `disk.create_partition_map_partition`. -/
def create_partition_map_partition : PartitionMapBlock :=
  { dpme_pblock_start := 1
    dpme_pblocks := 63
    dpme_name := bstr "Apple"
    dpme_type := bstr "Apple_partition_map"
    dpme_lblocks := 63 }

/-- `disk.create_driver_partition_block`.  The `for i, value in
enumerate(info.boot_args)` loop fills the leading slots of the zeroed
32-slot `dpme_boot_args` array. -/
def create_driver_partition_block (info : DriverIni)
    (start_block block_count : Nat) : PartitionMapBlock :=
  { dpme_pblock_start := start_block
    dpme_pblocks := block_count
    dpme_name := bstr "Macintosh"
    dpme_type := info.partition_type
    dpme_lblocks := block_count
    dpme_flags := info.partition_flags
    dpme_boot_block := info.booter
    dpme_boot_bytes := info.bytes
    dpme_load_addr := info.load_address_0
    dpme_load_addr_2 := info.load_address_1
    dpme_goto_addr := info.goto_address_0
    dpme_goto_addr_2 := info.goto_address_1
    dpme_checksum := info.checksum
    dpme_process_id := info.processor
    dpme_boot_args :=
      info.boot_args.take 32 ++ List.replicate (32 - info.boot_args.length) 0 }

/-- The `Block0` value built inside `disk.create_bootable_disk`
(lines 167–181). -/
def bootDiskBlock0 (info : DriverIni) (block_count : Nat) : Block0 :=
  { sbBlkSize := 512
    sbBlkCount := block_count
    sbDrvrCount := 1
    ddDrivers := (List.replicate 61 ({} : DriverDescriptor)).set 0
      { ddBlock := 64
        ddSize := info.bytes / 512 + (if info.bytes % 512 ≠ 0 then 1 else 0)
        ddType := 1 }
    sbDevType := 1
    sbDevId := 1 }

/-- The three populated partition-map entries written by
`disk.create_bootable_disk` (lines 197–212), in write order; each has its
`dpme_map_entries` field set to 3 after construction. -/
def bootDiskPartitionEntries (info : DriverIni) (block_count : Nat) :
    List PartitionMapBlock :=
  let volume_offset := 64 + 32
  let volume_block_count := block_count - volume_offset
  [ { create_basic_partition (bstr "MacOS") (bstr "Apple_HFS")
        volume_offset volume_block_count 0 with dpme_map_entries := 3 },
    { create_partition_map_partition with dpme_map_entries := 3 },
    { create_driver_partition_block info 64 32 with dpme_map_entries := 3 } ]

/-- The 32 sequential 512-byte reads of `driver.bin` (lines 220–223):
read `i` returns the bytes at offset `512*i`, short or empty at EOF. -/
def driverRegion (driver_bin : List Nat) : List Nat :=
  ((List.range 32).map (fun i => (driver_bin.drop (512 * i)).take 512)).flatten

/-- `disk.create_bootable_disk`, as a function from its inputs to either a
fatal error (a raised `ValueError`, with its message) or the byte stream
written to the output file.  External inputs made explicit: `info` is the
parsed `driver.ini` configuration, `driver_bin` the contents of
`driver.bin`, and `volume_payload` the result of the external machfs
encoder call `volume.write(size=volume_block_count * 512, bootable=False)`
(the code checks, rather than trusts, its length).  Python's
`block_count - 96` can go negative for tiny `block_count`; block counts
of interest are ≥ 96 and `Nat` subtraction agrees there. -/
def create_bootable_disk (info : DriverIni) (driver_bin : List Nat)
    (volume_payload : List Nat) (block_count : Nat) :
    Except String (List Nat) :=
  let block0_bytes := serBlock0 (bootDiskBlock0 info block_count)
  if block0_bytes.length ≠ 512 then
    Except.error "ASSERTION FAILED! sizeof(Block0) != 512"
  else
    let pm_blocks := (bootDiskPartitionEntries info block_count).map
      serPartitionMapBlock
    if pm_blocks.any (fun bl => bl.length ≠ 512) then
      Except.error "ASSERTION FAILED! sizeof(PartitionMapBlock) != 512"
    else
      let empty_blocks := (List.replicate 60 (List.replicate 512 0)).flatten
      let volume_block_count := block_count - (64 + 32)
      if volume_payload.length ≠ volume_block_count * 512 then
        Except.error "ASSERTION FAILED! len(volume_data) != volume_block_count * 512"
      else
        let stream := block0_bytes ++ pm_blocks.flatten ++ empty_blocks ++
          driverRegion driver_bin ++ volume_payload
        if stream.length ≠ block_count * 512 then
          Except.error "Error! Output file is not expected size!"
        else
          Except.ok stream

/-- `disk.mb_block_count`. -/
def mb_block_count (mb : Nat) : Nat :=
  let kb := mb * 1024
  kb * 2

end disk


namespace diskcopyimage

/-- `diskcopyimage.DiskCopyImageHeader`: the fixed DiskCopy 4.2 header.
`name_length`, `disk_type` and `format` are signed `c_byte` fields (hence
`Int`); the header itself is filled by an external `readinto` from the
input file, so its field values are inputs here. -/
structure DiskCopyImageHeader where
  name_length : Int := 0
  name : List Nat := []
  data_size : Nat := 0
  tag_size : Nat := 0
  data_checksum : Nat := 0
  tag_checksum : Nat := 0
  disk_type : Int := 0
  format : Int := 0
  magic_number : Nat := 0
  deriving DecidableEq

instance : Inhabited DiskCopyImageHeader := ⟨{}⟩

/-- `DiskCopyImageHeader.read_data`: `f` is the remainder of the input
file after the header (a Python `f.read(n)` returns at most `n` bytes,
i.e. `f.take n`). -/
def DiskCopyImageHeader.read_data (h : DiskCopyImageHeader) (f : List Nat) :
    Except String (List Nat) :=
  if h.magic_number ≠ 0x0100 then Except.error "Invalid Magic Number"
  else
    let data := f.take h.data_size
    if data.length ≠ h.data_size then Except.error "Unexpected EOF"
    else Except.ok data

end diskcopyimage

namespace applicationutil

def ARCH_68K : String := "68k"

def ARCH_PPC : String := "PPC"

/-- `applicationutil.get_supported_archs`.  The two external rsrcfork
lookups `resource_file.get(b'cfrg')` / `resource_file.get(b'code')` are
abstracted by the booleans `has_cfrg` / `has_code` (whether the lookup
returned a truthy lump for the given resource-fork blob). -/
def get_supported_archs (has_cfrg has_code : Bool) : List String :=
  (if has_cfrg then [ARCH_PPC] else []) ++ (if has_code then [ARCH_68K] else [])

end applicationutil

namespace machfs

/-- The fields of an external `machfs.File` object that the repository
reads or writes. -/
structure File where
  data : List Nat := []
  rsrc : List Nat := []
  type : List Nat := []
  creator : List Nat := []
  flags : Nat := 0
  x : Int := 0
  y : Int := 0
  deriving DecidableEq

instance : Inhabited File := ⟨{}⟩

end machfs

namespace appledouble

/-- `finder_entry.data.fdLocation` of the external appledouble parser. -/
structure FinderLocation where
  x : Int := 0
  y : Int := 0
  deriving DecidableEq

/-- The Finder-info entry payload of a parsed AppleDouble file. -/
structure FinderInfoData where
  fdType : List Nat := []
  fdCreator : List Nat := []
  fdFlags : Nat := 0
  fdLocation : FinderLocation := {}
  deriving DecidableEq

/-- A parsed AppleDouble file, reduced to the two entries the repository
queries via `get_entry` (resource fork and Finder info). -/
structure AppleDouble where
  resource_fork : Option (List Nat) := none
  finder_info : Option FinderInfoData := none
  deriving DecidableEq

end appledouble

namespace preparevolume

/-- `preparevolume.sanitize_hfs_name`: byte 0x3A (`:`) is remapped to
0x3F (`?`), names are truncated to 17 (folder) / 31 (file) bytes, and an
empty name raises `ValueError`. -/
def sanitize_hfs_name (name : List Nat) (is_folder : Bool) :
    Except String (List Nat) :=
  if name.length < 1 then Except.error "Invalid empty hfs name"
  else
    let val := name.map (fun b => if b = 58 then 63 else b)
    if is_folder then Except.ok (val.take 17) else Except.ok (val.take 31)

/-- The inner `block_align` of `preparevolume.get_hfs_file_size`. -/
def block_align (size : Nat) : Nat :=
  (size / 512 + (if size % 512 ≠ 0 then 1 else 0)) * 512

/-- `preparevolume.get_hfs_file_size`. -/
def get_hfs_file_size (file : machfs.File) : Nat :=
  block_align file.data.length + block_align file.rsrc.length

/-- `preparevolume.to_blocks`. -/
def to_blocks (byte_count : Nat) : Nat :=
  byte_count / 512 + (if byte_count % 512 ≠ 0 then 1 else 0)

/-- The architecture rejection condition of `preparevolume.add_file`
line 202: `len(supported_archs) > 0 and ARCH_68K not in supported_archs`. -/
def non68k_check (supported_archs : List String) : Bool :=
  decide (supported_archs.length > 0) &&
    decide (applicationutil.ARCH_68K ∉ supported_archs)

/-- `preparevolume` line 315: `int(args.target_blocks *
args.hfs_internals_ratio) - 96`.  The overhead ratio (an IEEE double,
default 0.85) is modelled as the exact rational
`ratio_num / ratio_den`; for the documented instance (2048, 0.85) the
IEEE product is 1740.80000000000018…, whose truncation agrees with the
exact rational's, 1740. -/
def target_blocks_per_volume (target_blocks ratio_num ratio_den : Nat) : Nat :=
  target_blocks * ratio_num / ratio_den - 96

/-- `preparevolume` line 316: `target_blocks_per_volume * 512`. -/
def target_size (target_blocks ratio_num ratio_den : Nat) : Nat :=
  target_blocks_per_volume target_blocks ratio_num ratio_den * 512

/-- `preparevolume.VolumeManager`, tracking what the packing property
needs: the running `bytes_taken` counter, the footprints of the entries
inserted into the in-progress volume, and the footprint lists of the
volumes already flushed by `write_volume` (whose machfs serialization and
file output are `create_bootable_disk`'s business, not the packer's). -/
structure VolumeManager where
  volume_index : Nat
  bytes_taken : Nat := 0
  volume : List Nat := []
  written : List (List Nat) := []
  deriving DecidableEq

/-- `VolumeManager.write_volume`: flush the current volume, advance the
index, reset the accumulator. -/
def write_volume (vm : VolumeManager) : VolumeManager :=
  { volume_index := vm.volume_index + 1
    bytes_taken := 0
    volume := []
    written := vm.written ++ [vm.volume] }

/-- One iteration of the main packing loop (lines 330–342) for an
accepted entry of footprint `bytes_taken`: flush first if the entry
would push the running total over `target_size_`, then insert
unconditionally. -/
def pack_step (target_size_ : Nat) (vm : VolumeManager) (bytes_taken : Nat) :
    VolumeManager :=
  let vm := if vm.bytes_taken + bytes_taken > target_size_ then
    write_volume vm else vm
  { vm with
    volume := vm.volume ++ [bytes_taken],
    bytes_taken := vm.bytes_taken + bytes_taken }

/-- The whole packing loop over the accepted top-level entries'
footprints, including the final `write_volume()` of line 346. -/
def pack_run (target_size_ : Nat) (start_index : Nat) (entries : List Nat) :
    VolumeManager :=
  write_volume (entries.foldl (pack_step target_size_)
    { volume_index := start_index })

/-- A file-or-folder entry returned by `add_file` (the folder case stands
for the `machfs.Folder` results of the container branches). -/
inductive HfsEntry where
  | file (f : machfs.File)
  | folder
  deriving DecidableEq

/-- The external collaborators of `preparevolume.add_file`, as oracles:
the filesystem (`os.path.isfile`, file contents), the appledouble parser
(`none` models a raised `ValueError`), the rsrcfork-based
`get_supported_archs` (`none` models `InvalidResourceFileError`), the
`mac_roman` codec of `sanitize_hfs_name_str`, and the three container
handlers `add_img` / `add_sit` / `add_dsk` (whose results at a given path
depend on the filesystem and subprocesses). -/
structure Env where
  is_file : List Char → Bool
  file_bytes : List Char → List Nat
  parse_double : List Char → Option appledouble.AppleDouble
  archs_of : List Nat → Option (List String)
  mac_roman : List Char → List Nat
  add_img : List Char → Except String (HfsEntry × List Nat × Nat)
  add_sit : List Char → Except String (HfsEntry × List Nat × Nat)
  add_dsk : List Char → Except String (HfsEntry × List Nat × Nat)

/-- `os.path.join` for a nonempty base path. -/
def path_join (base name : List Char) : List Char := base ++ '/' :: name

/-- Character list of a string literal. -/
def chars (s : String) : List Char := s.toList

/-- `preparevolume.add_file`.  The path is given pre-split as
`os.path.split` / `os.path.splitext` produce it: directory part,
basename without extension, and extension. -/
def add_file (env : Env) (base_path base_filename ext : List Char) :
    Except String (Option (HfsEntry × List Nat × Nat)) :=
  let filename := base_filename ++ ext
  let path := path_join base_path filename
  if filename = chars ".DS_Store" then Except.ok none
  else if ext = chars ".dmg" then Except.error "Contains an OSX DMG"
  else if ext = chars ".rsrc" ∧ env.is_file (path_join base_path base_filename)
  then Except.ok none
  else
    let has_data_file : Bool :=
      if ext = chars ".rsrc" then env.is_file (path_join base_path base_filename)
      else true
    if ext = chars ".img" ∨ ext = chars ".image" then (env.add_img path).map some
    else if ext = chars ".sit" then (env.add_sit path).map some
    else if ext = chars ".dsk" then (env.add_dsk path).map some
    else
      let step1 : Except String (machfs.File × List Char) :=
        if has_data_file then
          let contents := env.file_bytes path
          if contents.length > 1024 * 1024 * 5 then
            Except.error "Contains a file that is greater than 5 MiB"
          else Except.ok ({ data := contents }, path ++ chars ".rsrc")
        else Except.ok ({}, path)
      match step1 with
      | Except.error e => Except.error e
      | Except.ok (file, rsrc_path) =>
        let step2 : Except String machfs.File :=
          if env.is_file rsrc_path then
            match env.parse_double rsrc_path with
            | some double =>
              let fileA := match double.resource_fork with
                | some r => { file with rsrc := r }
                | none => file
              let fileB := match double.finder_info with
                | some fi => { fileA with
                    type := fi.fdType, creator := fi.fdCreator,
                    flags := fi.fdFlags, x := fi.fdLocation.x,
                    y := fi.fdLocation.y }
                | none => fileA
              let supported_archs := match env.archs_of fileB.rsrc with
                | some a => a
                | none => []
              if non68k_check supported_archs then
                Except.error "Found a non-68k executable."
              else Except.ok fileB
            | none => Except.ok file
          else Except.ok file
        match step2 with
        | Except.error e => Except.error e
        | Except.ok file2 =>
          let hfs_filename := if has_data_file then filename else base_filename
          match sanitize_hfs_name (env.mac_roman hfs_filename) false with
          | Except.error e => Except.error e
          | Except.ok sanitized_name =>
            Except.ok (some (HfsEntry.file file2, sanitized_name,
              get_hfs_file_size file2))

/-- The `machfs.File` value `add_file` builds from a parsed AppleDouble
sidecar when no paired data file is present (lines 183–194): empty data
fork, resource fork from the sidecar's resource-fork entry, Finder
metadata from its Finder-info entry. -/
def fileFromDouble (d : appledouble.AppleDouble) : machfs.File :=
  let fileA : machfs.File := match d.resource_fork with
    | some r => { rsrc := r }
    | none => {}
  match d.finder_info with
  | some fi => { fileA with
      type := fi.fdType, creator := fi.fdCreator, flags := fi.fdFlags,
      x := fi.fdLocation.x, y := fi.fdLocation.y }
  | none => fileA

/-- The architecture list the filter inspects for that file
(lines 196–200): the oracle's answer, or `[]` when the resource fork is
unparseable. -/
def archsFromDouble (env : Env) (d : appledouble.AppleDouble) : List String :=
  match env.archs_of (fileFromDouble d).rsrc with
  | some a => a
  | none => []

/-- A concrete environment for the path `d/a.rsrc`: no data file `d/a`
exists, the sidecar itself exists and parses as an AppleDouble whose
resource fork reports only the modern architecture. -/
def ppcSidecarEnv : Env :=
  { is_file := fun p => p == path_join (chars "d") (chars "a.rsrc")
    file_bytes := fun _ => []
    parse_double := fun _ => some { resource_fork := some [7] }
    archs_of := fun _ => some [applicationutil.ARCH_PPC]
    mac_roman := fun cs => cs.map Char.toNat
    add_img := fun _ => Except.error "unreachable"
    add_sit := fun _ => Except.error "unreachable"
    add_dsk := fun _ => Except.error "unreachable" }

end preparevolume

@[simp] theorem be16_length (n : Nat) : (be16 n).length = 2 := rfl

@[simp] theorem be32_length (n : Nat) : (be32 n).length = 4 := rfl

@[simp] theorem charField_length (s : List Nat) (len : Nat) :
    (charField s len).length = len := by
  simp only [charField, List.length_append, List.length_take, List.length_replicate]
  omega

theorem join_map_length_const {α β : Type} (f : α → List β) (k : Nat)
    (h : ∀ a, (f a).length = k) (l : List α) :
    ((l.map f).flatten).length = k * l.length := by
  induction l with
  | nil => simp
  | cons a t ih =>
    simp only [List.map_cons, List.flatten_cons, List.length_append, ih, h,
      List.length_cons]
    ring

@[simp] theorem serU32s_length (count : Nat) (xs : List Nat) :
    (serU32s count xs).length = 4 * count := by
  simp only [serU32s, List.length_append, List.length_replicate,
    join_map_length_const be32 4 be32_length, List.length_take]
  omega

theorem beVal_be16 (n : Nat) (h : n < 65536) : beVal (be16 n) = n := by
  simp only [beVal, be16, List.foldl]
  omega

theorem beVal_be32 (n : Nat) (h : n < 4294967296) : beVal (be32 n) = n := by
  simp only [beVal, be32, List.foldl]
  omega

theorem takeWhile_replicate_zero (k : Nat) :
    (List.replicate k 0).takeWhile (fun c => (c : Nat) ≠ 0) = [] := by
  cases k with
  | zero => rfl
  | succ m => simp [List.replicate, List.takeWhile]

theorem charVal_charField (s : List Nat) (len : Nat)
    (hlen : s.length ≤ len) (h : ∀ c ∈ s, c ≠ 0) :
    charVal (charField s len) = s := by
  induction s generalizing len with
  | nil => simp [charVal, charField, takeWhile_replicate_zero len]
  | cons c t ih =>
    have hc : c ≠ 0 := h c (by simp)
    cases len with
    | zero => simp at hlen
    | succ m =>
      have ht : charVal (charField t m) = t :=
        ih m (by simpa using hlen) (fun x hx => h x (by simp [hx]))
      simpa [charVal, charField, List.takeWhile, hc] using ht

theorem parseU32s_roundtrip (xs : List Nat) (rest : List Nat)
    (h : ∀ x ∈ xs, x < 4294967296) :
    parseU32s xs.length ((xs.map be32).flatten ++ rest) = xs := by
  induction xs generalizing rest with
  | nil => rfl
  | cons x t ih =>
    have hx : x < 4294967296 := h x (by simp)
    simp only [List.map_cons, List.flatten_cons, List.length_cons, parseU32s,
      List.append_assoc]
    rw [List.take_left' (be32_length x), List.drop_left' (be32_length x),
      beVal_be32 x hx, ih rest (fun y hy => h y (by simp [hy]))]

theorem serU32s_of_length (count : Nat) (xs : List Nat) (h : xs.length = count) :
    serU32s count xs = (xs.map be32).flatten := by
  simp [serU32s, h, List.take_of_length_le (Nat.le_of_eq h)]

namespace disk

@[simp] theorem serDriverDescriptor_length (d : DriverDescriptor) :
    (serDriverDescriptor d).length = 8 := rfl

@[simp] theorem serDriverDescriptors_length (count : Nat) (ds : List DriverDescriptor) :
    (serDriverDescriptors count ds).length = 8 * count := by
  simp only [serDriverDescriptors, List.length_append, List.length_replicate,
    join_map_length_const serDriverDescriptor 8 serDriverDescriptor_length,
    List.length_take]
  omega

theorem serBlock0_length (b : Block0) : (serBlock0 b).length = 512 := by
  simp [serBlock0]

theorem serPartitionMapBlock_length (p : PartitionMapBlock) :
    (serPartitionMapBlock p).length = 512 := by
  simp [serPartitionMapBlock]

@[simp] theorem serDriverDescriptors61_length (ds : List DriverDescriptor) :
    (serDriverDescriptors 61 ds).length = 488 := by
  rw [serDriverDescriptors_length]

@[simp] theorem serU32s32_length (xs : List Nat) :
    (serU32s 32 xs).length = 128 := by
  rw [serU32s_length]

theorem serDriverDescriptors_of_length (count : Nat) (ds : List DriverDescriptor)
    (h : ds.length = count) :
    serDriverDescriptors count ds = (ds.map serDriverDescriptor).flatten := by
  simp [serDriverDescriptors, h, List.take_of_length_le (Nat.le_of_eq h)]

theorem parseDriverDescriptor_ser (d : DriverDescriptor) (h : d.WF) :
    parseDriverDescriptor (serDriverDescriptor d) = d := by
  obtain ⟨b, s, t⟩ := d
  obtain ⟨h1, h2, h3⟩ := h
  simp only [DriverDescriptor.WF] at h1 h2 h3
  simp [parseDriverDescriptor, serDriverDescriptor, be32, be16, beVal,
    List.cons_append, List.nil_append, List.take, List.drop, List.foldl,
    DriverDescriptor.mk.injEq]
  refine ⟨?_, ?_, ?_⟩ <;> omega

theorem parseDriverDescriptors_roundtrip (ds : List DriverDescriptor)
    (rest : List Nat) (h : ∀ d ∈ ds, d.WF) :
    parseDriverDescriptors ds.length
      ((ds.map serDriverDescriptor).flatten ++ rest) = ds := by
  induction ds generalizing rest with
  | nil => rfl
  | cons d t ih =>
    simp only [List.map_cons, List.flatten_cons, List.length_cons,
      parseDriverDescriptors, List.append_assoc]
    rw [List.take_left' (serDriverDescriptor_length d),
      List.drop_left' (serDriverDescriptor_length d),
      parseDriverDescriptor_ser d (h d (by simp)),
      ih rest (fun x hx => h x (by simp [hx]))]

theorem parseBlock0_roundtrip (b : Block0) (h : b.WF) :
    parseBlock0 (serBlock0 b) = b := by
  obtain ⟨f1, f2, f3, f4, f5, f6, f7, fdd, f9, f10⟩ := b
  obtain ⟨hsig, hbs, hbc, hdt, hdi, hdata, hdc, hlen, hdw, hp1, hp2⟩ := h
  simp only [parseBlock0, serBlock0]
  simp only [List.take_left', List.drop_left', be16_length, be32_length,
    serDriverDescriptors61_length, Block0.mk.injEq]
  refine ⟨beVal_be16 _ hsig, beVal_be16 _ hbs, beVal_be32 _ hbc,
    beVal_be16 _ hdt, beVal_be16 _ hdi, beVal_be32 _ hdata,
    beVal_be16 _ hdc, ?_, beVal_be32 _ hp1, beVal_be16 _ hp2⟩
  rw [serDriverDescriptors_of_length 61 fdd hlen,
    show (61 : Nat) = fdd.length from hlen.symm]
  exact parseDriverDescriptors_roundtrip fdd _ hdw

theorem parseU32s_roundtrip_nil (xs : List Nat)
    (h : ∀ x ∈ xs, x < 4294967296) :
    parseU32s xs.length ((xs.map be32).flatten) = xs := by
  have := parseU32s_roundtrip xs [] h
  simpa using this

theorem parsePartitionMapBlock_roundtrip (p : PartitionMapBlock) (h : p.WF) :
    parsePartitionMapBlock (serPartitionMapBlock p) = p := by
  obtain ⟨g1, g2, g3, g4, g5, gname, gtype, g8, g9, g10, g11, g12, g13, g14,
    g15, g16, g17, gpid, gargs, gres⟩ := p
  obtain ⟨h1, h2, h3, h4, h5, hname, htype, h8, h9, h10, h11, h12, h13, h14,
    h15, h16, h17, hpid, hargs, hres⟩ := h
  simp only [parsePartitionMapBlock, serPartitionMapBlock]
  simp only [List.take_left', List.drop_left', be16_length, be32_length,
    charField_length, serU32s32_length, PartitionMapBlock.mk.injEq]
  refine ⟨beVal_be16 _ h1, beVal_be16 _ h2, beVal_be32 _ h3, beVal_be32 _ h4,
    beVal_be32 _ h5,
    charVal_charField _ _ hname.1 (fun c hc => (hname.2 c hc).1),
    charVal_charField _ _ htype.1 (fun c hc => (htype.2 c hc).1),
    beVal_be32 _ h8, beVal_be32 _ h9, beVal_be32 _ h10, beVal_be32 _ h11,
    beVal_be32 _ h12, beVal_be32 _ h13, beVal_be32 _ h14, beVal_be32 _ h15,
    beVal_be32 _ h16, beVal_be32 _ h17,
    charVal_charField _ _ hpid.1 (fun c hc => (hpid.2 c hc).1), ?_, ?_⟩
  · rw [serU32s_of_length 32 gargs hargs.1,
      show (32 : Nat) = gargs.length from hargs.1.symm]
    exact parseU32s_roundtrip gargs _ hargs.2
  · rw [serU32s_of_length 62 gres hres.1,
      show (62 : Nat) = gres.length from hres.1.symm]
    exact parseU32s_roundtrip_nil gres hres.2

theorem range_chunks_eq_take (file : List Nat) (n : Nat) :
    ((List.range n).map (fun i => (file.drop (512 * i)).take 512)).flatten =
      file.take (512 * n) := by
  induction n with
  | zero => simp
  | succ m ih =>
    rw [List.range_succ, List.map_append, List.flatten_append, ih]
    simp only [List.map_cons, List.map_nil, List.flatten_cons, List.flatten_nil,
      List.append_nil]
    rw [Nat.mul_succ, List.take_add]

/-- The driver region is verbatim the first 16 KiB of `driver.bin`
(all of it, padded by nothing, when the file is shorter). -/
theorem driverRegion_eq_take (driver_bin : List Nat) :
    driverRegion driver_bin = driver_bin.take 16384 :=
  range_chunks_eq_take driver_bin 32

theorem driverRegion_length (driver_bin : List Nat)
    (h : 16384 ≤ driver_bin.length) : (driverRegion driver_bin).length = 16384 := by
  rw [driverRegion_eq_take]
  simp only [List.length_take]
  omega

theorem flatten_length_const {α : Type} (L : List (List α)) (k : Nat)
    (h : ∀ l ∈ L, l.length = k) : L.flatten.length = k * L.length := by
  induction L with
  | nil => simp
  | cons a t ih =>
    simp only [List.flatten_cons, List.length_append, List.length_cons,
      h a (by simp), ih (fun l hl => h l (by simp [hl]))]
    ring

theorem emptyBlocks_length :
    ((List.replicate 60 (List.replicate 512 (0 : Nat))).flatten).length = 30720 := by
  rw [flatten_length_const _ 512 (fun l hl => by
    rw [List.eq_of_mem_replicate hl, List.length_replicate]),
    List.length_replicate]

theorem bootDiskPmBytes_length (info : DriverIni) (block_count : Nat) :
    (((bootDiskPartitionEntries info block_count).map
      serPartitionMapBlock).flatten).length = 1536 := by
  rw [flatten_length_const _ 512 (fun l hl => by
    obtain ⟨p, hp, rfl⟩ := List.mem_map.mp hl
    exact serPartitionMapBlock_length p)]
  simp [bootDiskPartitionEntries]

/-- Under the encoder's contract (payload of exactly
`(block_count - 96) * 512` bytes), a driver binary of at least 32 blocks
and a target of at least the 96 reserved blocks, `create_bootable_disk`
succeeds and its output stream is the concatenation of the five regions
in layout order. -/
theorem create_bootable_disk_ok (info : DriverIni)
    (driver_bin volume_payload : List Nat) (block_count : Nat)
    (hbc : 96 ≤ block_count)
    (hpay : volume_payload.length = (block_count - 96) * 512)
    (hdrv : 16384 ≤ driver_bin.length) :
    create_bootable_disk info driver_bin volume_payload block_count =
      Except.ok (serBlock0 (bootDiskBlock0 info block_count) ++
        ((bootDiskPartitionEntries info block_count).map
          serPartitionMapBlock).flatten ++
        (List.replicate 60 (List.replicate 512 0)).flatten ++
        driverRegion driver_bin ++ volume_payload) := by
  have hb0 := serBlock0_length (bootDiskBlock0 info block_count)
  have hpm : ((bootDiskPartitionEntries info block_count).map
      serPartitionMapBlock).any (fun bl => bl.length ≠ 512) = false := by
    simp only [List.any_eq_false, decide_eq_true_eq, Decidable.not_not]
    intro bl hbl
    obtain ⟨p, hp, rfl⟩ := List.mem_map.mp hbl
    exact serPartitionMapBlock_length p
  have hdl := driverRegion_length driver_bin hdrv
  have hstream : (serBlock0 (bootDiskBlock0 info block_count) ++
      ((bootDiskPartitionEntries info block_count).map
        serPartitionMapBlock).flatten ++
      (List.replicate 60 (List.replicate 512 0)).flatten ++
      driverRegion driver_bin ++ volume_payload).length = block_count * 512 := by
    simp only [List.length_append, hb0, bootDiskPmBytes_length,
      emptyBlocks_length, hdl, hpay]
    omega
  unfold create_bootable_disk
  rw [if_neg (by rw [hb0]; exact fun h => h rfl)]
  rw [if_neg (by rw [hpm]; exact Bool.false_ne_true)]
  rw [if_neg (by rw [hpay]; exact fun h => h rfl)]
  rw [if_neg (by rw [hstream]; exact fun h => h rfl)]

/-- `create_bootable_disk` returns normally only with a stream of exactly
`block_count * 512` bytes: the final `of.tell()` check turns any length
discrepancy into a fatal error. -/
theorem create_bootable_disk_ok_length (info : DriverIni)
    (driver_bin volume_payload : List Nat) (block_count : Nat) :
    ∀ s, create_bootable_disk info driver_bin volume_payload block_count =
      Except.ok s → s.length = block_count * 512 := by
  intro s hs
  simp only [create_bootable_disk] at hs
  split at hs
  · exact Except.noConfusion hs
  split at hs
  · exact Except.noConfusion hs
  split at hs
  · exact Except.noConfusion hs
  split at hs
  · exact Except.noConfusion hs
  next h =>
    cases hs
    exact not_ne_iff.mp h

theorem flatten_replicate_replicate (m n : Nat) :
    (List.replicate m (List.replicate n (0 : Nat))).flatten =
      List.replicate (m * n) 0 := by
  induction m with
  | zero => simp
  | succ k ih =>
    rw [List.replicate_succ, List.flatten_cons, ih, Nat.succ_mul,
      Nat.add_comm, List.replicate_add]

end disk

namespace preparevolume

theorem pack_loop_invariant (B : Nat) (entries : List Nat) :
    ∀ vm : VolumeManager,
    vm.bytes_taken = vm.volume.sum →
    (vm.volume.sum ≤ B ∨ vm.volume.length = 1) →
    (∀ v ∈ vm.written, v.sum ≤ B ∨ v.length = 1) →
    ((entries.foldl (pack_step B) vm).bytes_taken =
       (entries.foldl (pack_step B) vm).volume.sum ∧
     ((entries.foldl (pack_step B) vm).volume.sum ≤ B ∨
       (entries.foldl (pack_step B) vm).volume.length = 1) ∧
     ∀ v ∈ (entries.foldl (pack_step B) vm).written,
       v.sum ≤ B ∨ v.length = 1) := by
  induction entries with
  | nil => intro vm h1 h2 h3; exact ⟨h1, h2, h3⟩
  | cons b t ih =>
    intro vm h1 h2 h3
    simp only [List.foldl_cons]
    by_cases hc : vm.bytes_taken + b > B
    · have hstep : pack_step B vm b =
          { volume_index := vm.volume_index + 1, bytes_taken := 0 + b,
            volume := [b], written := vm.written ++ [vm.volume] } := by
        simp [pack_step, write_volume, hc]
      rw [hstep]
      apply ih
      · simp
      · right; rfl
      · intro v hv
        rcases List.mem_append.mp hv with hv | hv
        · exact h3 v hv
        · rw [List.mem_singleton.mp hv]; exact h2
    · have hstep : pack_step B vm b =
          { vm with volume := vm.volume ++ [b],
                    bytes_taken := vm.bytes_taken + b } := by
        simp [pack_step, write_volume, hc]
      rw [hstep]
      apply ih
      · simp [h1]
      · left
        simp only [List.sum_append, List.sum_cons, List.sum_nil]
        omega
      · simpa using h3

theorem pack_loop_content (B : Nat) (entries : List Nat) :
    ∀ vm : VolumeManager,
    (entries.foldl (pack_step B) vm).written.flatten ++
      (entries.foldl (pack_step B) vm).volume =
    vm.written.flatten ++ vm.volume ++ entries := by
  induction entries with
  | nil => intro vm; simp
  | cons b t ih =>
    intro vm
    simp only [List.foldl_cons]
    rw [ih]
    by_cases hc : vm.bytes_taken + b > B
    · simp [pack_step, write_volume, hc, List.flatten_append]
    · simp [pack_step, write_volume, hc]

end preparevolume

/-- C2: over any sequence of accepted top-level entry footprints and any
budget `B`, the packing loop flushes before an insertion that would push
the running total over `B` (so every flushed or final volume either stays
within budget or consists of a single oversized first entry), and every
entry is inserted — an entry exceeding `B` on its own still enters the
fresh volume as its first entry rather than being deferred. -/
theorem C2_pack_budget (B : Nat) (entries : List Nat) (start_index : Nat) :
    (∀ v ∈ (preparevolume.pack_run B start_index entries).written,
       v.sum ≤ B ∨ v.length = 1) ∧
    (preparevolume.pack_run B start_index entries).written.flatten = entries ∧
    ∀ (vm : preparevolume.VolumeManager) (b : Nat),
      (preparevolume.pack_step B vm b).volume =
        if vm.bytes_taken + b > B then [b] else vm.volume ++ [b] := by
  have hinv := preparevolume.pack_loop_invariant B entries
    { volume_index := start_index } rfl (Or.inl (Nat.zero_le B))
    (fun v hv => absurd hv (List.not_mem_nil v))
  have hcont := preparevolume.pack_loop_content B entries
    { volume_index := start_index }
  refine ⟨?_, ?_, ?_⟩
  · intro v hv
    simp only [preparevolume.pack_run, preparevolume.write_volume] at hv
    rcases List.mem_append.mp hv with hv | hv
    · exact hinv.2.2 v hv
    · rw [List.mem_singleton.mp hv]
      exact hinv.2.1
  · simp only [preparevolume.pack_run, preparevolume.write_volume,
      List.flatten_append]
    simpa using hcont
  · intro vm b
    by_cases hc : vm.bytes_taken + b > B
    · simp [preparevolume.pack_step, preparevolume.write_volume, hc]
    · simp [preparevolume.pack_step, preparevolume.write_volume, hc]

/-- Witness for C2 at budget 10 and footprints `[3, 4, 12, 2]`: the run
produces flushed volumes `[[3, 4], [12], [2]]`, and the oversized volume
`[12]` is a singleton. -/
theorem C2_pack_budget_witness :
    ([12] : List Nat).sum ≤ 10 ∨ ([12] : List Nat).length = 1 :=
  (C2_pack_budget 10 [3, 4, 12, 2] 0).1 [12] (by decide)

/-- C3 counterexample: with `target_blocks = 2048` and overhead ratio
0.85 the packer's budget is `int(2048 * 0.85) - 96 = 1740 - 96 = 1644`
blocks (the IEEE product 1740.80000000000018… truncates to 1740), not
the claimed 1645 blocks / 842240 bytes. -/
theorem C3_budget_counterexample :
    preparevolume.target_blocks_per_volume 2048 85 100 ≠ 1645 ∧
    preparevolume.target_size 2048 85 100 ≠ 842240 := by decide

/-- C3 (amended): with `target_blocks = 2048` and overhead ratio 0.85 the
effective budget is 1644 blocks, i.e. 841728 bytes. -/
theorem C3_budget_value :
    preparevolume.target_blocks_per_volume 2048 85 100 = 1644 ∧
    preparevolume.target_size 2048 85 100 = 841728 := by decide

/-- C4: the filter rejects a resource fork exactly when its computed
architecture list is non-empty and lacks the legacy `68k` tag; in
particular PPC-only is rejected and 68k-only, dual, and empty are
accepted. -/
theorem C4_arch_filter :
    (∀ has_cfrg has_code : Bool,
      preparevolume.non68k_check
          (applicationutil.get_supported_archs has_cfrg has_code) =
        decide (applicationutil.get_supported_archs has_cfrg has_code ≠ [] ∧
          applicationutil.ARCH_68K ∉
            applicationutil.get_supported_archs has_cfrg has_code)) ∧
    preparevolume.non68k_check
      (applicationutil.get_supported_archs true false) = true ∧
    preparevolume.non68k_check
      (applicationutil.get_supported_archs false true) = false ∧
    preparevolume.non68k_check
      (applicationutil.get_supported_archs true true) = false ∧
    preparevolume.non68k_check
      (applicationutil.get_supported_archs false false) = false := by
  decide

/-- C5: `read_data` fails with the format error exactly on a wrong magic
number; with the right magic number it fails with the EOF error exactly
when fewer than `data_size` bytes remain, and otherwise returns exactly
`data_size` bytes; the checksum fields never influence the result. -/
theorem C5_read_data (h : diskcopyimage.DiskCopyImageHeader) (f : List Nat) :
    (h.magic_number ≠ 0x0100 →
      h.read_data f = Except.error "Invalid Magic Number") ∧
    (h.magic_number = 0x0100 → f.length < h.data_size →
      h.read_data f = Except.error "Unexpected EOF") ∧
    (h.magic_number = 0x0100 → h.data_size ≤ f.length →
      h.read_data f = Except.ok (f.take h.data_size) ∧
        (f.take h.data_size).length = h.data_size) ∧
    ∀ c1 c2, diskcopyimage.DiskCopyImageHeader.read_data
        { h with data_checksum := c1, tag_checksum := c2 } f =
      h.read_data f := by
  refine ⟨?_, ?_, ?_, fun c1 c2 => rfl⟩
  · intro hm
    simp [diskcopyimage.DiskCopyImageHeader.read_data, hm]
  · intro hm hf
    have hne : (f.take h.data_size).length ≠ h.data_size := by
      simp only [List.length_take]
      omega
    simp [diskcopyimage.DiskCopyImageHeader.read_data, hm, hne]
    omega
  · intro hm hle
    have heq : (f.take h.data_size).length = h.data_size := by
      simp only [List.length_take]
      omega
    refine ⟨?_, heq⟩
    simp [diskcopyimage.DiskCopyImageHeader.read_data, hm, heq]

/-- Witness for C5: a header with the right magic number and a declared
size of 2 over a 3-byte remainder reads back exactly the first 2 bytes. -/
theorem C5_read_data_witness :
    diskcopyimage.DiskCopyImageHeader.read_data
        ({ magic_number := 0x0100, data_size := 2 } :
          diskcopyimage.DiskCopyImageHeader) [9, 9, 9] =
      Except.ok (([9, 9, 9] : List Nat).take 2) :=
  ((C5_read_data { magic_number := 0x0100, data_size := 2 } [9, 9, 9]).2.2.1
    rfl (by decide)).1

/-- C9: the projected footprint of a file is its data-fork length rounded
up to a multiple of 512 plus its resource-fork length rounded up to a
multiple of 512; a 1000-byte file without resource fork projects to
1024. -/
theorem C9_hfs_file_size (file : machfs.File) :
    preparevolume.get_hfs_file_size file =
      512 * ((file.data.length + 511) / 512) +
        512 * ((file.rsrc.length + 511) / 512) ∧
    preparevolume.get_hfs_file_size { data := List.replicate 1000 0 } = 1024 := by
  have halign : ∀ n : Nat,
      preparevolume.block_align n = 512 * ((n + 511) / 512) := by
    intro n
    unfold preparevolume.block_align
    by_cases hz : n % 512 ≠ 0 <;> simp [hz] <;> omega
  constructor
  · rw [preparevolume.get_hfs_file_size, halign, halign]
  · rw [preparevolume.get_hfs_file_size, halign, halign,
      show ({ data := List.replicate 1000 0 } : machfs.File).data =
        List.replicate 1000 0 from rfl,
      show ({ data := List.replicate 1000 0 } : machfs.File).rsrc = []
        from rfl, List.length_replicate, List.length_nil]

/-- C1: for a driver configuration, a driver binary covering the 32
copied blocks, a target of at least the 96 reserved blocks and a payload
meeting the encoder's contract, `create_bootable_disk` returns a stream
of exactly `block_count * 512` bytes; and whenever it returns normally at
all, the stream has exactly that length — any discrepancy ends in a
fatal error instead of a normal return. -/
theorem C1_image_size (info : disk.DriverIni)
    (driver_bin volume_payload : List Nat) (block_count : Nat)
    (hini : info.WF)
    (hbc : 96 ≤ block_count)
    (hpay : volume_payload.length = (block_count - 96) * 512)
    (hdrv : 16384 ≤ driver_bin.length) :
    (∃ s, disk.create_bootable_disk info driver_bin volume_payload block_count =
        Except.ok s ∧ s.length = block_count * 512) ∧
    ∀ s, disk.create_bootable_disk info driver_bin volume_payload block_count =
        Except.ok s → s.length = block_count * 512 := by
  have hok := disk.create_bootable_disk_ok info driver_bin volume_payload
    block_count hbc hpay hdrv
  have hlen := disk.create_bootable_disk_ok_length info driver_bin
    volume_payload block_count
  exact ⟨⟨_, hok, hlen _ hok⟩, hlen⟩

/-- Witness for C1 at `block_count = 97` with a 16 KiB driver binary and
a one-block payload. -/
theorem C1_image_size_witness :
    (∃ s, disk.create_bootable_disk {} (List.replicate 16384 0)
        (List.replicate 512 0) 97 = Except.ok s ∧ s.length = 97 * 512) ∧
    ∀ s, disk.create_bootable_disk {} (List.replicate 16384 0)
        (List.replicate 512 0) 97 = Except.ok s → s.length = 97 * 512 :=
  C1_image_size {} (List.replicate 16384 0) (List.replicate 512 0) 97
    (by decide) (by decide) (by rw [List.length_replicate])
    (by rw [List.length_replicate])

/-- C6: `Block0` and `PartitionMapBlock` serialize to exactly 512 bytes
each, and parsing a serialized record reproduces every field value, for
records representable in the ctypes layout (numeric fields within their
widths, char-array fields of NUL-free bytes that fit, array fields of
their declared lengths). -/
theorem C6_fixed_records (b : disk.Block0) (p : disk.PartitionMapBlock)
    (hb : b.WF) (hp : p.WF) :
    (disk.serBlock0 b).length = 512 ∧
    (disk.serPartitionMapBlock p).length = 512 ∧
    disk.parseBlock0 (disk.serBlock0 b) = b ∧
    disk.parsePartitionMapBlock (disk.serPartitionMapBlock p) = p :=
  ⟨disk.serBlock0_length b, disk.serPartitionMapBlock_length p,
   disk.parseBlock0_roundtrip b hb, disk.parsePartitionMapBlock_roundtrip p hp⟩

/-- Witness for C6: the boot block built for a 2048-block image and the
partition-map self-entry round-trip through their serializations. -/
theorem C6_fixed_records_witness :
    disk.parseBlock0 (disk.serBlock0 (disk.bootDiskBlock0 {} 2048)) =
      disk.bootDiskBlock0 {} 2048 ∧
    disk.parsePartitionMapBlock
        (disk.serPartitionMapBlock disk.create_partition_map_partition) =
      disk.create_partition_map_partition :=
  ⟨(C6_fixed_records (disk.bootDiskBlock0 {} 2048)
      disk.create_partition_map_partition (by decide) (by decide)).2.2.1,
   (C6_fixed_records (disk.bootDiskBlock0 {} 2048)
      disk.create_partition_map_partition (by decide) (by decide)).2.2.2⟩

/-- C7: every one of the three populated partition-map entries written by
`create_bootable_disk` — volume, partition-map descriptor, driver — has
`dpme_map_entries = 3`. -/
theorem C7_map_entries (info : disk.DriverIni) (block_count : Nat) :
    ∀ p ∈ disk.bootDiskPartitionEntries info block_count,
      p.dpme_map_entries = 3 := by
  intro p hp
  simp only [disk.bootDiskPartitionEntries, List.mem_cons,
    List.not_mem_nil, or_false] at hp
  rcases hp with rfl | rfl | rfl <;> rfl

/-- Witness for C7: the partition-map descriptor entry of any image. -/
theorem C7_map_entries_witness :
    ({ disk.create_partition_map_partition with dpme_map_entries := 3 } :
      disk.PartitionMapBlock).dpme_map_entries = 3 :=
  C7_map_entries {} 2048 _ (by simp [disk.bootDiskPartitionEntries])

/-- C8: every successfully produced image has the fixed layout — block 0
the boot block, blocks 1–3 the three populated partition-map entries,
blocks 4–63 zero fill, blocks 64–95 the driver binary verbatim, and
block 96 onward exactly the volume payload of `block_count - 96` blocks;
the recorded extents are (96, `block_count - 96`) for the volume entry,
(1, 63) for the map's self-entry and (64, 32) for the driver entry. -/
theorem C8_image_layout (info : disk.DriverIni)
    (driver_bin volume_payload : List Nat) (block_count : Nat)
    (hbc : 96 ≤ block_count)
    (hpay : volume_payload.length = (block_count - 96) * 512)
    (hdrv : 16384 ≤ driver_bin.length) :
    ∃ s, disk.create_bootable_disk info driver_bin volume_payload block_count =
        Except.ok s ∧
      s.take 512 = disk.serBlock0 (disk.bootDiskBlock0 info block_count) ∧
      (s.drop 512).take 1536 =
        ((disk.bootDiskPartitionEntries info block_count).map
          disk.serPartitionMapBlock).flatten ∧
      (s.drop 2048).take 30720 = List.replicate 30720 0 ∧
      (s.drop 32768).take 16384 = driver_bin.take 16384 ∧
      s.drop 49152 = volume_payload ∧
      (s.drop 49152).length = (block_count - 96) * 512 ∧
      (disk.bootDiskPartitionEntries info block_count).map
          (fun p => (p.dpme_pblock_start, p.dpme_pblocks)) =
        [(96, block_count - 96), (1, 63), (64, 32)] := by
  have hok := disk.create_bootable_disk_ok info driver_bin volume_payload
    block_count hbc hpay hdrv
  set A := disk.serBlock0 (disk.bootDiskBlock0 info block_count) with hA_def
  set B := ((disk.bootDiskPartitionEntries info block_count).map
    disk.serPartitionMapBlock).flatten with hB_def
  set C := (List.replicate 60 (List.replicate 512 (0 : Nat))).flatten with hC_def
  set D := disk.driverRegion driver_bin with hD_def
  have hA : A.length = 512 := disk.serBlock0_length _
  have hB : B.length = 1536 := disk.bootDiskPmBytes_length info block_count
  have hC : C.length = 30720 := disk.emptyBlocks_length
  have hD : D.length = 16384 := disk.driverRegion_length driver_bin hdrv
  have hAB : (A ++ B).length = 2048 := by
    rw [List.length_append, hA, hB]
  have hABC : ((A ++ B) ++ C).length = 32768 := by
    rw [List.length_append, hAB, hC]
  have hABCD : (((A ++ B) ++ C) ++ D).length = 49152 := by
    rw [List.length_append, hABC, hD]
  refine ⟨A ++ B ++ C ++ D ++ volume_payload, hok, ?_, ?_, ?_, ?_, ?_, ?_, ?_⟩
  · have hs : A ++ B ++ C ++ D ++ volume_payload =
        A ++ (B ++ (C ++ (D ++ volume_payload))) := by
      simp [List.append_assoc]
    rw [hs, List.take_left' hA]
  · have hs : A ++ B ++ C ++ D ++ volume_payload =
        A ++ (B ++ (C ++ (D ++ volume_payload))) := by
      simp [List.append_assoc]
    rw [hs, List.drop_left' hA, List.take_left' hB]
  · have hs : A ++ B ++ C ++ D ++ volume_payload =
        (A ++ B) ++ (C ++ (D ++ volume_payload)) := by
      simp [List.append_assoc]
    rw [hs, List.drop_left' hAB, List.take_left' hC, hC_def,
      disk.flatten_replicate_replicate]
  · have hs : A ++ B ++ C ++ D ++ volume_payload =
        ((A ++ B) ++ C) ++ (D ++ volume_payload) := by
      simp [List.append_assoc]
    rw [hs, List.drop_left' hABC, List.take_left' hD, hD_def,
      disk.driverRegion_eq_take]
  · rw [List.drop_left' hABCD]
  · rw [List.drop_left' hABCD, hpay]
  · simp [disk.bootDiskPartitionEntries, disk.create_basic_partition,
      disk.create_partition_map_partition, disk.create_driver_partition_block]

/-- Witness for C8 at `block_count = 100`: the payload region of the
produced image is exactly the supplied 4-block payload. -/
theorem C8_image_layout_witness :
    ∃ s, disk.create_bootable_disk {} (List.replicate 16384 1)
        (List.replicate 2048 0) 100 = Except.ok s ∧
      s.drop 49152 = List.replicate 2048 0 := by
  obtain ⟨s, hok, _, _, _, _, hpayload, _, _⟩ :=
    C8_image_layout {} (List.replicate 16384 1) (List.replicate 2048 0) 100
      (by decide) (by rw [List.length_replicate])
      (by rw [List.length_replicate])
  exact ⟨s, hok, hpayload⟩

namespace preparevolume

theorem rsrc_ne_dsstore (s : List Char) :
    s ++ chars ".rsrc" ≠ chars ".DS_Store" := by
  intro h
  have hlen : s.length + 5 = 9 := by
    have hl := congrArg List.length h
    simpa [chars] using hl
  have hds : chars ".DS_Store" =
      ['.', 'D', 'S', '_'] ++ ['S', 't', 'o', 'r', 'e'] := by decide
  rw [hds] at h
  have htail := List.append_inj_right h (by simp; omega)
  exact absurd htail (by decide)

end preparevolume

/-- C10 (amended): for a `.rsrc` path, if the same-named data file exists
beside it `add_file` skips the entry (returns `None`); if it does not
exist and the sidecar parses as an AppleDouble whose resource fork passes
the architecture filter, `add_file` returns a file with an empty data
fork, resource fork and Finder metadata taken from the sidecar, named by
the sanitized base filename with the `.rsrc` extension removed; a
modern-only sidecar is instead rejected with a filter error (see the
counterexample). -/
theorem C10_rsrc_sidecar (env : preparevolume.Env)
    (base_path base_filename : List Char) (d : appledouble.AppleDouble)
    (nm : List Nat) :
    (env.is_file (preparevolume.path_join base_path base_filename) = true →
      preparevolume.add_file env base_path base_filename
        (preparevolume.chars ".rsrc") = Except.ok none) ∧
    (env.is_file (preparevolume.path_join base_path base_filename) = false →
     env.is_file (preparevolume.path_join base_path
       (base_filename ++ preparevolume.chars ".rsrc")) = true →
     env.parse_double (preparevolume.path_join base_path
       (base_filename ++ preparevolume.chars ".rsrc")) = some d →
     preparevolume.non68k_check (preparevolume.archsFromDouble env d) = false →
     preparevolume.sanitize_hfs_name (env.mac_roman base_filename) false =
       Except.ok nm →
     preparevolume.add_file env base_path base_filename
         (preparevolume.chars ".rsrc") =
       Except.ok (some (preparevolume.HfsEntry.file
         (preparevolume.fileFromDouble d), nm,
         preparevolume.get_hfs_file_size (preparevolume.fileFromDouble d))) ∧
     (preparevolume.fileFromDouble d).data = []) := by
  have eds : (base_filename ++ preparevolume.chars ".rsrc" =
      preparevolume.chars ".DS_Store") = False :=
    eq_false (preparevolume.rsrc_ne_dsstore base_filename)
  have edmg : (preparevolume.chars ".rsrc" = preparevolume.chars ".dmg") =
      False := eq_false (by decide)
  have eimg : (preparevolume.chars ".rsrc" = preparevolume.chars ".img" ∨
      preparevolume.chars ".rsrc" = preparevolume.chars ".image") = False :=
    eq_false (by decide)
  have esit : (preparevolume.chars ".rsrc" = preparevolume.chars ".sit") =
      False := eq_false (by decide)
  have edsk : (preparevolume.chars ".rsrc" = preparevolume.chars ".dsk") =
      False := eq_false (by decide)
  constructor
  · intro h
    simp only [preparevolume.add_file, eds, edmg, if_false, eq_self_iff_true,
      true_and, h, if_true]
  · intro h1 h2 h3 h4 h5
    obtain ⟨rf, fi⟩ := d
    simp only [preparevolume.archsFromDouble, preparevolume.fileFromDouble] at h4 ⊢
    cases rf <;> cases fi <;>
      simp_all only [preparevolume.add_file, eds, edmg, eimg, esit, edsk,
        if_false, eq_self_iff_true, true_and, if_true, Bool.false_eq_true,
        and_false, and_true, Bool.true_eq_false, ite_false, ite_true]

/-- C10 counterexample: for the path `d/a.rsrc` with no data file `d/a`
beside it, a sidecar that parses but reports a modern-only architecture
makes `add_file` raise the filter error — it neither skips the entry nor
returns a file. -/
theorem C10_counterexample :
    preparevolume.ppcSidecarEnv.is_file
        (preparevolume.path_join (preparevolume.chars "d")
          (preparevolume.chars "a")) = false ∧
    preparevolume.add_file preparevolume.ppcSidecarEnv
        (preparevolume.chars "d") (preparevolume.chars "a")
        (preparevolume.chars ".rsrc") =
      Except.error "Found a non-68k executable." :=
  ⟨rfl, rfl⟩

/-- Witness for C10: an environment whose sidecar at `d/a.rsrc` parses
with a 3-byte resource fork reporting no architectures at all; `add_file`
returns the merged file entry under the sanitized base name `a`. -/
theorem C10_rsrc_sidecar_witness :
    preparevolume.add_file
        { preparevolume.ppcSidecarEnv with archs_of := fun _ => none }
        (preparevolume.chars "d") (preparevolume.chars "a")
        (preparevolume.chars ".rsrc") =
      Except.ok (some (preparevolume.HfsEntry.file
        (preparevolume.fileFromDouble { resource_fork := some [7] }),
        [97],
        preparevolume.get_hfs_file_size
          (preparevolume.fileFromDouble { resource_fork := some [7] }))) ∧
    (preparevolume.fileFromDouble
      ({ resource_fork := some [7] } : appledouble.AppleDouble)).data = [] :=
  (C10_rsrc_sidecar
      { preparevolume.ppcSidecarEnv with archs_of := fun _ => none }
      (preparevolume.chars "d") (preparevolume.chars "a")
      { resource_fork := some [7] } [97]).2
    rfl rfl rfl rfl rfl
